import Mathlib

/-!
dEvoting deployment migrations.

A shallow embedding of the two Truffle migrations of the repository,
`blockend/migrations/2_dEvotingNFT.js` and `blockend/migrations/3_dEvoting.js`,
and the properties of network-profile selection, address-store writes and
failure handling that follow from them.

Everything the migrations call but do not define (the Truffle deployer and
artifact accessors, `../migration-parameters`, `../utils/env-man`, the string
built-in `toUpperCase`) is a field of `Env`, so the theorems hold for every
behaviour of those collaborators.
-/

set_option autoImplicit false

namespace DEvoting

/-! ## Data -/

/-- One entry of `../migration-parameters` (`conf.rinkeby`, `conf.devnet`, ...): the
fields the two migrations read from the selected profile `c`. -/
structure Profile where
  name : String
  symbol : String
  uri : String
  tokenIds : List Int
  tokenSupplies : List Int
  NFTtokenIds : List Int
  deriving DecidableEq, Repr

/-- The module `../migration-parameters` (`conf`): one profile per entry the
migrations mention. The module is not part of the sources, so it is a parameter. -/
structure Conf where
  rinkeby : Profile
  mainnet : Profile
  mumbai : Profile
  devnet : Profile
  deriving DecidableEq, Repr

/-- The object a contract abstraction's `deployed()` yields; the migrations only read
its `address`. -/
structure Artifact where
  address : String
  deriving DecidableEq, Repr

/-- A constructor argument handed to `deployer.deploy`. -/
inductive Value where
  | str (s : String)
  | ints (l : List Int)
  deriving DecidableEq, Repr

/-- An observable call a migration makes on a collaborator. -/
inductive Call where
  | deploy (contract : String) (args : List Value)
  | log (msg : String)
  | setEnvValue (dir : String) (key : String) (value : String)
  deriving DecidableEq, Repr

/-- Everything a migration uses but does not define. `σ` is the state of the address
store behind `setEnvValue`.

* `conf`: `require("../migration-parameters")`;
* `toUpperCase`: `String.prototype.toUpperCase`;
* `setEnvValue`: `require("../utils/env-man").setEnvValue`, as a store update;
* `deploy`: how `await deployer.deploy(contract, ...args)` settles;
* `deployed`: how `await contract.deployed()` settles (`none` is a falsy result).

A migration awaits `deploy` once and the accessor of a contract at most once, so
answers that are functions of the call cover every way one migration can unfold. -/
structure Env (σ : Type) where
  conf : Conf
  toUpperCase : String → String
  setEnvValue : String → String → String → σ → σ
  deploy : String → List Value → Except String Unit
  deployed : String → Except String (Option Artifact)

/-- The mutable state a migration runs in: the implicit global `c` (assigned without a
declaration, so it outlives a migration), the address store, and the calls made so
far, oldest first. -/
structure World (σ : Type) where
  c : Option Profile
  store : σ
  calls : List Call

/-- How the `async` migration function settles, and the state it leaves. -/
structure Outcome (σ : Type) where
  result : Except String Unit
  world : World σ

/-! ## The `switch` statement -/

/-- One clause of a `switch`: `label = none` is `default:`, `brk` says whether the
clause ends in `break`. -/
structure Clause (σ : Type) where
  label : Option String
  body : σ → σ
  brk : Bool

/-- Runs clauses from the entry point on: each body in turn, until one ends in `break`
or the clauses are exhausted (fall-through). -/
def execFrom {σ : Type} : List (Clause σ) → σ → σ
  | [], s => s
  | cl :: rest, s => if cl.brk then cl.body s else execFrom rest (cl.body s)

/-- The entry point for discriminant `d`: the first `case` whose label is strictly equal
to `d`, else the `default` clause, with the clauses after it. -/
def entryPoint {σ : Type} (d : String) (cs : List (Clause σ)) : List (Clause σ) :=
  match cs.dropWhile (fun cl => decide (cl.label ≠ some d)) with
  | [] => cs.dropWhile (fun cl => decide (cl.label ≠ none))
  | hit :: rest => hit :: rest

/-- Semantics of `switch (d) { ...cs }` on state `s`. -/
def switchStmt {σ : Type} (d : String) (cs : List (Clause σ)) (s : σ) : σ :=
  execFrom (entryPoint d cs) s

/-- The clauses of the network switch, identical in both migrations
(`2_dEvotingNFT.js` lines 12-24, `3_dEvoting.js` lines 16-28). The state is the global
`c`; `c = { ...conf.x }` stores a copy of `conf.x`. -/
def networkCases (conf : Conf) : List (Clause (Option Profile)) :=
  [ { label := some "rinkeby", body := fun _ => some conf.rinkeby, brk := true },
    { label := some "mainnet", body := fun _ => some conf.mainnet, brk := true },
    { label := some "mumbai", body := fun _ => some conf.mumbai, brk := false },
    { label := some "development", body := fun c => c, brk := false },
    { label := none, body := fun _ => some conf.devnet, brk := false } ]

/-- The value of the global `c` after `switch (network) { ... }`, from its value `c0`
before. -/
def networkSwitch (conf : Conf) (network : String) (c0 : Option Profile) : Option Profile :=
  switchStmt network (networkCases conf) c0

/-! ## The migrations -/

/-- Records a call. -/
def World.call {σ : Type} (w : World σ) (k : Call) : World σ :=
  { w with calls := w.calls ++ [k] }

/-- The key template of `setDEvotingNFT`. -/
def dEvotingNFTKey {σ : Type} (E : Env σ) (n : String) : String :=
  "dEvotingNFT_ADDRESS" ++ E.toUpperCase n

/-- The key template of `setDEvoting`. -/
def dEvotingKey {σ : Type} (E : Env σ) (n : String) : String :=
  "dEvoting_ADDRESS" ++ E.toUpperCase n

/-- `setDEvotingNFT(n, v)` of `2_dEvotingNFT.js`: one `setEnvValue` call. -/
def setDEvotingNFT {σ : Type} (E : Env σ) (n v : String) (w : World σ) : World σ :=
  { w with
    store := E.setEnvValue "../" (dEvotingNFTKey E n) v w.store
    calls := w.calls ++ [Call.setEnvValue "../" (dEvotingNFTKey E n) v] }

/-- `setDEvoting(n, v)` of `3_dEvoting.js`: one `setEnvValue` call. -/
def setDEvoting {σ : Type} (E : Env σ) (n v : String) (w : World σ) : World σ :=
  { w with
    store := E.setEnvValue "../" (dEvotingKey E n) v w.store
    calls := w.calls ++ [Call.setEnvValue "../" (dEvotingKey E n) v] }

/-- `accounts[0]` inside a template literal. -/
def creator (accounts : List String) : String :=
  match accounts with
  | [] => "undefined"
  | a :: _ => a

/-- The success message of `2_dEvotingNFT.js`. -/
def deployedNFTMsg (network address : String) (accounts : List String) : String :=
  "Deployed: dEvotingNFT\n       network: " ++ network ++ "\n       address: " ++ address ++
    "\n       creator: " ++ creator accounts ++ "\n    "

/-- The success message of `3_dEvoting.js`. -/
def deployedMsg (network address : String) (accounts : List String) : String :=
  "Deployed: dEvoting\n         network: " ++ network ++ "\n         address: " ++ address ++
    "\n         creator: " ++ creator accounts ++ "\n      "

/-- The arguments after the contract in the `deployer.deploy` call of
`2_dEvotingNFT.js`: `c.name, c.symbol, c.uri, c.tokenIds, c.tokenSupplies`. -/
def nftArgs (c : Profile) : List Value :=
  [Value.str c.name, Value.str c.symbol, Value.str c.uri, Value.ints c.tokenIds,
    Value.ints c.tokenSupplies]

/-- The migration exported by `2_dEvotingNFT.js`. -/
def migration_2_dEvotingNFT {σ : Type} (E : Env σ) (network : String)
    (accounts : List String) (w : World σ) : Outcome σ :=
  let w1 : World σ := { w with c := networkSwitch E.conf network w.c }
  match w1.c with
  | none => ⟨.error "ReferenceError: c is not defined", w1⟩
  | some c =>
    let args := nftArgs c
    let w2 := w1.call (Call.deploy "dEvotingNFT" args)
    match E.deploy "dEvotingNFT" args with
    | .error e => ⟨.error e, w2⟩
    | .ok _ =>
      match E.deployed "dEvotingNFT" with
      | .error e => ⟨.error e, w2⟩
      | .ok (some dEvotingNFT) =>
        let w3 := w2.call (Call.log (deployedNFTMsg network dEvotingNFT.address accounts))
        ⟨.ok (), setDEvotingNFT E network dEvotingNFT.address w3⟩
      | .ok none => ⟨.ok (), w2.call (Call.log "dEvotingNFT Deployment UNSUCCESSFUL")⟩

/-- The migration exported by `3_dEvoting.js`. -/
def migration_3_dEvoting {σ : Type} (E : Env σ) (network : String)
    (accounts : List String) (w : World σ) : Outcome σ :=
  match E.deployed "dEvotingNFT" with
  | .error e => ⟨.error e, w⟩
  | .ok nft =>
    let w1 : World σ := { w with c := networkSwitch E.conf network w.c }
    match nft with
    | none => ⟨.error "TypeError: Cannot read properties of undefined (reading address)", w1⟩
    | some dEvotingNFT =>
      match w1.c with
      | none => ⟨.error "ReferenceError: c is not defined", w1⟩
      | some c =>
        let args := [Value.str dEvotingNFT.address, Value.ints c.NFTtokenIds]
        let w2 := w1.call (Call.deploy "dEvoting" args)
        match E.deploy "dEvoting" args with
        | .error e => ⟨.error e, w2⟩
        | .ok _ =>
          match E.deployed "dEvoting" with
          | .error e => ⟨.error e, w2⟩
          | .ok (some dEvoting) =>
            let w3 := w2.call (Call.log (deployedMsg network dEvoting.address accounts))
            ⟨.ok (), setDEvoting E network dEvoting.address w3⟩
          | .ok none => ⟨.ok (), w2.call (Call.log "dEvoting Deployment UNSUCCESSFUL")⟩

/-! ## Observations on a call list -/

/-- The address-store writes among the calls: `(key, value)` of each `setEnvValue`. -/
def storeWrites : List Call → List (String × String)
  | [] => []
  | Call.setEnvValue _ k v :: rest => (k, v) :: storeWrites rest
  | _ :: rest => storeWrites rest

/-- The constructor arguments of each `deployer.deploy` among the calls. -/
def deployArgs : List Call → List (List Value)
  | [] => []
  | Call.deploy _ args :: rest => args :: deployArgs rest
  | _ :: rest => deployArgs rest

/-! ## A concrete environment -/

/-- The built-in `toUpperCase` on ASCII text: `a`-`z` become `A`-`Z`. -/
def asciiUpper (s : String) : String :=
  String.mk (s.data.map Char.toUpper)

/-- Modelled from the spec: `setEnvValue` of `blockend/utils/env-man`, which is not in
the sources. Writing an existing key replaces its value in place, the other entries
are untouched, and a new key is added at the end. The store is the record file of the
one directory both migrations pass (`"../"`). -/
def envManSet (_dir key value : String) : List (String × String) → List (String × String)
  | [] => [(key, value)]
  | (k, v) :: rest =>
    if k = key then (k, value) :: rest else (k, v) :: envManSet _dir key value rest

/-- Modelled from the spec: the `get` of the address store (`blockend/utils/env-man`,
not in the sources): the value recorded under a key, if any. -/
def envManGet (key : String) : List (String × String) → Option String
  | [] => none
  | (k, v) :: rest => if k = key then some v else envManGet key rest

/-- A sample `conf`: the local profile of the spec's end-to-end scenario, and distinct
profiles for the named networks. -/
def sampleConf : Conf where
  rinkeby := ⟨"dEvoting Rinkeby", "DVR", "ipfs://rinkeby/", [1, 2], [5, 5], [1]⟩
  mainnet := ⟨"dEvoting", "DV", "ipfs://mainnet/", [1], [100], [1]⟩
  mumbai := ⟨"dEvoting Mumbai", "DVM", "ipfs://mumbai/", [4, 5], [7, 7], [4]⟩
  devnet := ⟨"dEvoting Dev", "DVD", "ipfs://dev/", [1, 2, 3], [10, 10, 10], [1, 2]⟩

/-- A sample environment: every deployment succeeds, the NFT lands at `0x111` and the
voting contract at `0x222`. -/
def sampleEnv : Env (List (String × String)) where
  conf := sampleConf
  toUpperCase := asciiUpper
  setEnvValue := envManSet
  deploy := fun _ _ => .ok ()
  deployed := fun k => .ok (some ⟨if k = "dEvotingNFT" then "0x111" else "0x222"⟩)

/-- The sample environment with a failing provisioning: no contract is ever deployed. -/
def failingEnv : Env (List (String × String)) :=
  { sampleEnv with deployed := fun _ => .ok none }

/-- The sample environment where `dEvotingNFT` is deployed and `dEvoting` is not. -/
def secondFailsEnv : Env (List (String × String)) :=
  { sampleEnv with
    deployed := fun k => if k = "dEvotingNFT" then .ok (some ⟨"0x111"⟩) else .ok none }

/-- The sample environment where deployed artifacts report an empty address. -/
def emptyAddressEnv : Env (List (String × String)) :=
  { sampleEnv with deployed := fun _ => .ok (some ⟨""⟩) }

/-- A fresh state: `c` unassigned, an empty store, no calls yet. -/
def World.fresh : World (List (String × String)) :=
  { c := none, store := [], calls := [] }

/-! ## The network switch -/

theorem networkSwitch_rinkeby (conf : Conf) (c0 : Option Profile) :
    networkSwitch conf "rinkeby" c0 = some conf.rinkeby := by
  simp [networkSwitch, switchStmt, entryPoint, networkCases, List.dropWhile, execFrom]

theorem networkSwitch_mainnet (conf : Conf) (c0 : Option Profile) :
    networkSwitch conf "mainnet" c0 = some conf.mainnet := by
  simp [networkSwitch, switchStmt, entryPoint, networkCases, List.dropWhile, execFrom]

theorem networkSwitch_mumbai (conf : Conf) (c0 : Option Profile) :
    networkSwitch conf "mumbai" c0 = some conf.devnet := by
  simp [networkSwitch, switchStmt, entryPoint, networkCases, List.dropWhile, execFrom]

theorem networkSwitch_development (conf : Conf) (c0 : Option Profile) :
    networkSwitch conf "development" c0 = some conf.devnet := by
  simp [networkSwitch, switchStmt, entryPoint, networkCases, List.dropWhile, execFrom]

theorem networkSwitch_other (conf : Conf) (c0 : Option Profile) (n : String)
    (h1 : n ≠ "rinkeby") (h2 : n ≠ "mainnet") (h3 : n ≠ "mumbai") (h4 : n ≠ "development") :
    networkSwitch conf n c0 = some conf.devnet := by
  simp [networkSwitch, switchStmt, entryPoint, networkCases, List.dropWhile, execFrom,
    Ne.symm h1, Ne.symm h2, Ne.symm h3, Ne.symm h4]

/-- The switch assigns `c` on every path. -/
theorem networkSwitch_isSome (conf : Conf) (n : String) (c0 : Option Profile) :
    ∃ p, networkSwitch conf n c0 = some p := by
  by_cases h1 : n = "rinkeby"
  · exact ⟨_, h1 ▸ networkSwitch_rinkeby conf c0⟩
  by_cases h2 : n = "mainnet"
  · exact ⟨_, h2 ▸ networkSwitch_mainnet conf c0⟩
  by_cases h3 : n = "mumbai"
  · exact ⟨_, h3 ▸ networkSwitch_mumbai conf c0⟩
  by_cases h4 : n = "development"
  · exact ⟨_, h4 ▸ networkSwitch_development conf c0⟩
  exact ⟨_, networkSwitch_other conf c0 n h1 h2 h3 h4⟩

/-! ## Call lists -/

theorem storeWrites_append (xs ys : List Call) :
    storeWrites (xs ++ ys) = storeWrites xs ++ storeWrites ys := by
  induction xs with
  | nil => rfl
  | cons x xs ih => cases x <;> simp [storeWrites, ih]

theorem deployArgs_append (xs ys : List Call) :
    deployArgs (xs ++ ys) = deployArgs xs ++ deployArgs ys := by
  induction xs with
  | nil => rfl
  | cons x xs ih => cases x <;> simp [deployArgs, ih]

/-! ## The paths through the migrations -/

theorem m2_present {σ : Type} (E : Env σ) (n : String) (accounts : List String) (w : World σ)
    (p : Profile) (d : Artifact)
    (hp : networkSwitch E.conf n w.c = some p)
    (hd : E.deploy "dEvotingNFT" (nftArgs p) = .ok ())
    (h1 : E.deployed "dEvotingNFT" = .ok (some d)) :
    migration_2_dEvotingNFT E n accounts w =
      ⟨.ok (), { c := some p
                 store := E.setEnvValue "../" (dEvotingNFTKey E n) d.address w.store
                 calls := w.calls ++ [Call.deploy "dEvotingNFT" (nftArgs p),
                   Call.log (deployedNFTMsg n d.address accounts),
                   Call.setEnvValue "../" (dEvotingNFTKey E n) d.address] }⟩ := by
  simp [migration_2_dEvotingNFT, hp, hd, h1, World.call, setDEvotingNFT]

theorem m2_absent {σ : Type} (E : Env σ) (n : String) (accounts : List String) (w : World σ)
    (p : Profile)
    (hp : networkSwitch E.conf n w.c = some p)
    (hd : E.deploy "dEvotingNFT" (nftArgs p) = .ok ())
    (h1 : E.deployed "dEvotingNFT" = .ok none) :
    migration_2_dEvotingNFT E n accounts w =
      ⟨.ok (), { c := some p
                 store := w.store
                 calls := w.calls ++ [Call.deploy "dEvotingNFT" (nftArgs p),
                   Call.log "dEvotingNFT Deployment UNSUCCESSFUL"] }⟩ := by
  simp [migration_2_dEvotingNFT, hp, hd, h1, World.call]

theorem m3_present {σ : Type} (E : Env σ) (n : String) (accounts : List String) (w : World σ)
    (p : Profile) (nft d : Artifact)
    (hp : networkSwitch E.conf n w.c = some p)
    (h1 : E.deployed "dEvotingNFT" = .ok (some nft))
    (hd : E.deploy "dEvoting" [Value.str nft.address, Value.ints p.NFTtokenIds] = .ok ())
    (h2 : E.deployed "dEvoting" = .ok (some d)) :
    migration_3_dEvoting E n accounts w =
      ⟨.ok (), { c := some p
                 store := E.setEnvValue "../" (dEvotingKey E n) d.address w.store
                 calls := w.calls ++ [Call.deploy "dEvoting" [Value.str nft.address,
                     Value.ints p.NFTtokenIds],
                   Call.log (deployedMsg n d.address accounts),
                   Call.setEnvValue "../" (dEvotingKey E n) d.address] }⟩ := by
  simp [migration_3_dEvoting, hp, hd, h1, h2, World.call, setDEvoting]

theorem m3_absent {σ : Type} (E : Env σ) (n : String) (accounts : List String) (w : World σ)
    (p : Profile) (nft : Artifact)
    (hp : networkSwitch E.conf n w.c = some p)
    (h1 : E.deployed "dEvotingNFT" = .ok (some nft))
    (hd : E.deploy "dEvoting" [Value.str nft.address, Value.ints p.NFTtokenIds] = .ok ())
    (h2 : E.deployed "dEvoting" = .ok none) :
    migration_3_dEvoting E n accounts w =
      ⟨.ok (), { c := some p
                 store := w.store
                 calls := w.calls ++ [Call.deploy "dEvoting" [Value.str nft.address,
                     Value.ints p.NFTtokenIds],
                   Call.log "dEvoting Deployment UNSUCCESSFUL"] }⟩ := by
  simp [migration_3_dEvoting, hp, hd, h1, h2, World.call]

/-- Whatever the collaborators answer, `3_dEvoting.js` issues exactly one `deploy` once
the NFT accessor has yielded an artifact, with the NFT address and `c.NFTtokenIds`. -/
theorem m3_deployArgs {σ : Type} (E : Env σ) (n : String) (accounts : List String)
    (w : World σ) (p : Profile) (nft : Artifact)
    (hp : networkSwitch E.conf n w.c = some p)
    (h1 : E.deployed "dEvotingNFT" = .ok (some nft)) :
    deployArgs (migration_3_dEvoting E n accounts w).world.calls =
      deployArgs w.calls ++ [[Value.str nft.address, Value.ints p.NFTtokenIds]] := by
  simp only [migration_3_dEvoting, h1, hp]
  cases E.deploy "dEvoting" [Value.str nft.address, Value.ints p.NFTtokenIds] with
  | error e => simp [World.call, deployArgs_append, deployArgs]
  | ok u =>
    cases E.deployed "dEvoting" with
    | error e => simp [World.call, deployArgs_append, deployArgs]
    | ok r =>
      cases r <;> simp [World.call, setDEvoting, deployArgs_append, deployArgs]

/-- Whatever the collaborators answer, `2_dEvotingNFT.js` issues exactly one `deploy`,
with the five fields of the selected profile. -/
theorem m2_deployArgs {σ : Type} (E : Env σ) (n : String) (accounts : List String)
    (w : World σ) (p : Profile)
    (hp : networkSwitch E.conf n w.c = some p) :
    deployArgs (migration_2_dEvotingNFT E n accounts w).world.calls =
      deployArgs w.calls ++ [nftArgs p] := by
  simp only [migration_2_dEvotingNFT, hp]
  cases E.deploy "dEvotingNFT" (nftArgs p) with
  | error e => simp [World.call, deployArgs_append, deployArgs]
  | ok u =>
    cases E.deployed "dEvotingNFT" with
    | error e => simp [World.call, deployArgs_append, deployArgs]
    | ok r =>
      cases r <;> simp [World.call, setDEvotingNFT, deployArgs_append, deployArgs]

/-- Without an artifact from its own accessor, `2_dEvotingNFT.js` never reaches
`setDEvotingNFT`, however `deployer.deploy` settles. -/
theorem m2_no_write {σ : Type} (E : Env σ) (n : String) (accounts : List String)
    (w : World σ) (h1 : E.deployed "dEvotingNFT" = .ok none) :
    (migration_2_dEvotingNFT E n accounts w).world.store = w.store ∧
    storeWrites (migration_2_dEvotingNFT E n accounts w).world.calls = storeWrites w.calls := by
  obtain ⟨p, hp⟩ := networkSwitch_isSome E.conf n w.c
  simp only [migration_2_dEvotingNFT, hp, h1]
  cases hE : E.deploy "dEvotingNFT" (nftArgs p) <;>
    simp [hE, World.call, storeWrites_append, storeWrites]

/-- Without an artifact from its own accessor, `3_dEvoting.js` never reaches
`setDEvoting`, however the NFT accessor and `deployer.deploy` settle. -/
theorem m3_no_write {σ : Type} (E : Env σ) (n : String) (accounts : List String)
    (w : World σ) (h2 : E.deployed "dEvoting" = .ok none) :
    (migration_3_dEvoting E n accounts w).world.store = w.store ∧
    storeWrites (migration_3_dEvoting E n accounts w).world.calls = storeWrites w.calls := by
  obtain ⟨p, hp⟩ := networkSwitch_isSome E.conf n w.c
  simp only [migration_3_dEvoting, hp, h2]
  cases E.deployed "dEvotingNFT" with
  | error e => simp
  | ok r =>
    cases r with
    | none => simp
    | some nft =>
      cases hE : E.deploy "dEvoting" [Value.str nft.address, Value.ints p.NFTtokenIds] <;>
        simp [hE, World.call, storeWrites_append, storeWrites]

/-! ## The address store -/

theorem envManGet_set_ne (dir key other value : String) (s : List (String × String))
    (h : other ≠ key) :
    envManGet other (envManSet dir key value s) = envManGet other s := by
  induction s with
  | nil => simp [envManSet, envManGet, Ne.symm h]
  | cons e rest ih =>
    obtain ⟨k, v⟩ := e
    by_cases hk : k = key
    · subst hk
      simp [envManSet, envManGet, Ne.symm h]
    · by_cases ho : k = other
      · subst ho
        simp [envManSet, envManGet, h]
      · simp [envManSet, envManGet, hk, ho, ih]

theorem envManGet_set_eq (dir key value : String) (s : List (String × String)) :
    envManGet key (envManSet dir key value s) = some value := by
  induction s with
  | nil => simp [envManSet, envManGet]
  | cons e rest ih =>
    obtain ⟨k, v⟩ := e
    by_cases hk : k = key
    · simp [envManSet, envManGet, hk]
    · simp [envManSet, envManGet, hk, ih]

/-- The two key templates never meet: after `dEvoting` one has `N`, the other `_`. -/
theorem keys_ne (x y : String) : "dEvotingNFT_ADDRESS" ++ x ≠ "dEvoting_ADDRESS" ++ y := by
  intro h
  have h2 := congrArg String.data h
  simp [String.data_append] at h2

/-! ## Network-profile selection -/

/-- C1, evaluated where it fails: for the network name `mumbai` the switch leaves
`conf.devnet` in `c`, not the configured `conf.mumbai`, and `2_dEvotingNFT.js` deploys
with the fields of `conf.devnet`. The `mumbai` case assigns `conf.mumbai` but has no
`break`. -/
theorem mumbai_configured_profile_lost :
    networkSwitch sampleConf "mumbai" none = some sampleConf.devnet ∧
    networkSwitch sampleConf "mumbai" none ≠ some sampleConf.mumbai ∧
    deployArgs (migration_2_dEvotingNFT sampleEnv "mumbai" [] World.fresh).world.calls =
      [nftArgs sampleConf.devnet] := by
  decide

/-- C2: for every network name other than `rinkeby`, `mainnet`, `mumbai` and
`development`, the switch of the migrations ends (it is a total function, whatever `c`
held before) with `c` equal to the default profile `conf.devnet`. -/
theorem unrecognized_network_selects_devnet (conf : Conf) (c0 : Option Profile) (n : String)
    (h1 : n ≠ "rinkeby") (h2 : n ≠ "mainnet") (h3 : n ≠ "mumbai") (h4 : n ≠ "development") :
    networkSwitch conf n c0 = some conf.devnet :=
  networkSwitch_other conf c0 n h1 h2 h3 h4

theorem unrecognized_network_selects_devnet_witness :
    networkSwitch sampleConf "" (some sampleConf.mainnet) = some sampleConf.devnet :=
  unrecognized_network_selects_devnet sampleConf (some sampleConf.mainnet) ""
    (by decide) (by decide) (by decide) (by decide)

/-- C8: for the network name `mumbai` the switch ends with `c = conf.devnet` whatever
`conf.mumbai` is, and both migrations deploy with fields of `conf.devnet`: the five
constructor fields in `2_dEvotingNFT.js`, `NFTtokenIds` in `3_dEvoting.js` (once its NFT
accessor has yielded an artifact). -/
theorem mumbai_falls_through_to_devnet {σ : Type} (E : Env σ) (accounts : List String)
    (w : World σ) (nft : Artifact) (h : E.deployed "dEvotingNFT" = .ok (some nft)) :
    networkSwitch E.conf "mumbai" w.c = some E.conf.devnet ∧
    (∀ p : Profile,
      networkSwitch { E.conf with mumbai := p } "mumbai" w.c = some E.conf.devnet) ∧
    deployArgs (migration_2_dEvotingNFT E "mumbai" accounts w).world.calls =
      deployArgs w.calls ++ [nftArgs E.conf.devnet] ∧
    deployArgs (migration_3_dEvoting E "mumbai" accounts w).world.calls =
      deployArgs w.calls ++ [[Value.str nft.address, Value.ints E.conf.devnet.NFTtokenIds]] :=
  ⟨networkSwitch_mumbai E.conf w.c,
   fun p => networkSwitch_mumbai { E.conf with mumbai := p } w.c,
   m2_deployArgs E "mumbai" accounts w E.conf.devnet (networkSwitch_mumbai E.conf w.c),
   m3_deployArgs E "mumbai" accounts w E.conf.devnet nft (networkSwitch_mumbai E.conf w.c) h⟩

theorem mumbai_falls_through_to_devnet_witness :
    networkSwitch sampleConf "mumbai" none = some sampleConf.devnet ∧
    deployArgs (migration_3_dEvoting sampleEnv "mumbai" [] World.fresh).world.calls =
      [[Value.str "0x111", Value.ints [1, 2]]] :=
  have h := mumbai_falls_through_to_devnet sampleEnv [] World.fresh ⟨"0x111"⟩ rfl
  ⟨h.1, h.2.2.2⟩

/-! ## Address-store writes -/

/-- C3: when `deployer.deploy` returns and the accessor yields an artifact with
address `a`, a step makes exactly one `setEnvValue` call, with value `a` and key
`dEvotingNFT_ADDRESS` (first step) or `dEvoting_ADDRESS` (second step) followed by the
upper-cased network name, and the store is updated by that one call. Hence a network
name with the same upper-casing as `n` produces the same writes. -/
theorem successful_step_writes_one_record {σ : Type} (E : Env σ) (n : String)
    (accounts : List String) (w : World σ) (a1 a2 : String)
    (hd : ∀ k args, E.deploy k args = .ok ())
    (h1 : E.deployed "dEvotingNFT" = .ok (some ⟨a1⟩))
    (h2 : E.deployed "dEvoting" = .ok (some ⟨a2⟩)) :
    (storeWrites (migration_2_dEvotingNFT E n accounts w).world.calls =
        storeWrites w.calls ++ [("dEvotingNFT_ADDRESS" ++ E.toUpperCase n, a1)] ∧
      (migration_2_dEvotingNFT E n accounts w).world.store =
        E.setEnvValue "../" ("dEvotingNFT_ADDRESS" ++ E.toUpperCase n) a1 w.store) ∧
    (storeWrites (migration_3_dEvoting E n accounts w).world.calls =
        storeWrites w.calls ++ [("dEvoting_ADDRESS" ++ E.toUpperCase n, a2)] ∧
      (migration_3_dEvoting E n accounts w).world.store =
        E.setEnvValue "../" ("dEvoting_ADDRESS" ++ E.toUpperCase n) a2 w.store) ∧
    (∀ m : String, E.toUpperCase m = E.toUpperCase n →
      storeWrites (migration_2_dEvotingNFT E m accounts w).world.calls =
        storeWrites (migration_2_dEvotingNFT E n accounts w).world.calls ∧
      storeWrites (migration_3_dEvoting E m accounts w).world.calls =
        storeWrites (migration_3_dEvoting E n accounts w).world.calls) := by
  have key2 : ∀ m : String,
      storeWrites (migration_2_dEvotingNFT E m accounts w).world.calls =
        storeWrites w.calls ++ [("dEvotingNFT_ADDRESS" ++ E.toUpperCase m, a1)] ∧
      (migration_2_dEvotingNFT E m accounts w).world.store =
        E.setEnvValue "../" ("dEvotingNFT_ADDRESS" ++ E.toUpperCase m) a1 w.store := by
    intro m
    obtain ⟨p, hp⟩ := networkSwitch_isSome E.conf m w.c
    rw [m2_present E m accounts w p ⟨a1⟩ hp (hd _ _) h1]
    simp [storeWrites_append, storeWrites, dEvotingNFTKey]
  have key3 : ∀ m : String,
      storeWrites (migration_3_dEvoting E m accounts w).world.calls =
        storeWrites w.calls ++ [("dEvoting_ADDRESS" ++ E.toUpperCase m, a2)] ∧
      (migration_3_dEvoting E m accounts w).world.store =
        E.setEnvValue "../" ("dEvoting_ADDRESS" ++ E.toUpperCase m) a2 w.store := by
    intro m
    obtain ⟨p, hp⟩ := networkSwitch_isSome E.conf m w.c
    rw [m3_present E m accounts w p ⟨a1⟩ ⟨a2⟩ hp h1 (hd _ _) h2]
    simp [storeWrites_append, storeWrites, dEvotingKey]
  refine ⟨key2 n, key3 n, fun m hm => ⟨?_, ?_⟩⟩
  · rw [(key2 m).1, (key2 n).1, hm]
  · rw [(key3 m).1, (key3 n).1, hm]

theorem successful_step_writes_one_record_witness :
    storeWrites (migration_2_dEvotingNFT sampleEnv "development" ["0xabc"]
      World.fresh).world.calls = [("dEvotingNFT_ADDRESSDEVELOPMENT", "0x111")] ∧
    (migration_3_dEvoting sampleEnv "development" ["0xabc"] World.fresh).world.store =
      [("dEvoting_ADDRESSDEVELOPMENT", "0x222")] ∧
    storeWrites (migration_3_dEvoting sampleEnv "Development" ["0xabc"]
      World.fresh).world.calls =
      storeWrites (migration_3_dEvoting sampleEnv "development" ["0xabc"]
        World.fresh).world.calls :=
  have h := successful_step_writes_one_record sampleEnv "development" ["0xabc"] World.fresh
    "0x111" "0x222" (fun _ _ => rfl) rfl rfl
  ⟨h.1.1.trans (by decide), h.2.1.2.trans (by decide), (h.2.2 "Development" (by decide)).2⟩

/-- C9: the key written by the first step for a network name `n1` differs from the key
written by the second step for a network name `n2`, whatever the names are; so in the
address store a write of either record leaves the other record as it was. -/
theorem step_keys_disjoint {σ : Type} (E : Env σ) (n1 n2 : String) :
    dEvotingNFTKey E n1 ≠ dEvotingKey E n2 ∧
    (∀ (dir v : String) (s : List (String × String)),
      envManGet (dEvotingNFTKey E n1) (envManSet dir (dEvotingKey E n2) v s) =
        envManGet (dEvotingNFTKey E n1) s) ∧
    (∀ (dir v : String) (s : List (String × String)),
      envManGet (dEvotingKey E n2) (envManSet dir (dEvotingNFTKey E n1) v s) =
        envManGet (dEvotingKey E n2) s) :=
  have hne : dEvotingNFTKey E n1 ≠ dEvotingKey E n2 := keys_ne _ _
  ⟨hne, fun dir v s => envManGet_set_ne dir _ _ v s hne,
    fun dir v s => envManGet_set_ne dir _ _ v s (Ne.symm hne)⟩

/-- C10: the name `Rinkeby` is none of the four names the switch knows; a successful
first step run for it deploys with the default profile `conf.devnet` and writes its
address under the key `dEvotingNFT_ADDRESSRINKEBY`, the key the same step writes for the
recognized network `rinkeby`, which deploys with `conf.rinkeby`. -/
theorem case_variant_shares_store_key {σ : Type} (E : Env σ) (accounts : List String)
    (w : World σ) (a : String)
    (hU : E.toUpperCase "Rinkeby" = "RINKEBY") (hu : E.toUpperCase "rinkeby" = "RINKEBY")
    (hd : ∀ k args, E.deploy k args = .ok ())
    (h1 : E.deployed "dEvotingNFT" = .ok (some ⟨a⟩)) :
    ∃ n : String, (n ≠ "rinkeby" ∧ n ≠ "mainnet" ∧ n ≠ "mumbai" ∧ n ≠ "development") ∧
      (migration_2_dEvotingNFT E n accounts w).world.c = some E.conf.devnet ∧
      deployArgs (migration_2_dEvotingNFT E n accounts w).world.calls =
        deployArgs w.calls ++ [nftArgs E.conf.devnet] ∧
      storeWrites (migration_2_dEvotingNFT E n accounts w).world.calls =
        storeWrites w.calls ++ [("dEvotingNFT_ADDRESSRINKEBY", a)] ∧
      (migration_2_dEvotingNFT E "rinkeby" accounts w).world.c = some E.conf.rinkeby ∧
      storeWrites (migration_2_dEvotingNFT E "rinkeby" accounts w).world.calls =
        storeWrites w.calls ++ [("dEvotingNFT_ADDRESSRINKEBY", a)] := by
  have hp : networkSwitch E.conf "Rinkeby" w.c = some E.conf.devnet :=
    networkSwitch_other E.conf w.c "Rinkeby" (by decide) (by decide) (by decide) (by decide)
  have hr := networkSwitch_rinkeby E.conf w.c
  refine ⟨"Rinkeby", ⟨by decide, by decide, by decide, by decide⟩, ?_, ?_, ?_, ?_, ?_⟩
  · rw [m2_present E "Rinkeby" accounts w _ ⟨a⟩ hp (hd _ _) h1]
  · exact m2_deployArgs E "Rinkeby" accounts w _ hp
  · rw [m2_present E "Rinkeby" accounts w _ ⟨a⟩ hp (hd _ _) h1]
    simp [storeWrites_append, storeWrites, dEvotingNFTKey, hU]
  · rw [m2_present E "rinkeby" accounts w _ ⟨a⟩ hr (hd _ _) h1]
  · rw [m2_present E "rinkeby" accounts w _ ⟨a⟩ hr (hd _ _) h1]
    simp [storeWrites_append, storeWrites, dEvotingNFTKey, hu]

theorem case_variant_shares_store_key_witness :
    ∃ n : String, (n ≠ "rinkeby" ∧ n ≠ "mainnet" ∧ n ≠ "mumbai" ∧ n ≠ "development") ∧
      (migration_2_dEvotingNFT sampleEnv n [] World.fresh).world.c = some sampleConf.devnet ∧
      storeWrites (migration_2_dEvotingNFT sampleEnv n [] World.fresh).world.calls =
        [("dEvotingNFT_ADDRESSRINKEBY", "0x111")] ∧
      storeWrites (migration_2_dEvotingNFT sampleEnv "rinkeby" [] World.fresh).world.calls =
        [("dEvotingNFT_ADDRESSRINKEBY", "0x111")] :=
  have ⟨n, hn, hc, _, hw, _, hw2⟩ := case_variant_shares_store_key sampleEnv [] World.fresh
    "0x111" (by decide) (by decide) (fun _ _ => rfl) rfl
  ⟨n, hn, hc, hw, hw2⟩

/-! ## Constructor arguments of the second step -/

/-- C4 as stated fails: with the sample configuration, whose default profile has
`tokenIds = [1, 2, 3]` and `NFTtokenIds = [1, 2]`, the second step run for `development`
with the NFT at `0x111` passes `["0x111", [1, 2]]`, not `["0x111", tokenIds]`; the first
step passes `tokenIds = [1, 2, 3]`. -/
theorem second_step_args_are_not_tokenIds :
    networkSwitch sampleConf "development" none = some sampleConf.devnet ∧
    deployArgs (migration_3_dEvoting sampleEnv "development" [] World.fresh).world.calls =
      [[Value.str "0x111", Value.ints [1, 2]]] ∧
    deployArgs (migration_3_dEvoting sampleEnv "development" [] World.fresh).world.calls ≠
      [[Value.str "0x111", Value.ints sampleConf.devnet.tokenIds]] ∧
    deployArgs (migration_2_dEvotingNFT sampleEnv "development" [] World.fresh).world.calls =
      [[Value.str "dEvoting Dev", Value.str "DVD", Value.str "ipfs://dev/",
        Value.ints sampleConf.devnet.tokenIds, Value.ints [10, 10, 10]]] := by
  decide

/-- C4, amended: when the NFT accessor yields an artifact with address `a`, the
constructor arguments the second step passes to `deployer.deploy` are exactly
`[a, NFTtokenIds]`, where `NFTtokenIds` is that field of the profile the switch selected;
they are the same for every content of the address store. -/
theorem second_step_args {σ : Type} (E : Env σ) (n : String) (accounts : List String)
    (w : World σ) (a : String) (h : E.deployed "dEvotingNFT" = .ok (some ⟨a⟩)) :
    ∃ p : Profile, networkSwitch E.conf n w.c = some p ∧
      ∀ s : σ,
        deployArgs (migration_3_dEvoting E n accounts { w with store := s }).world.calls =
          deployArgs w.calls ++ [[Value.str a, Value.ints p.NFTtokenIds]] := by
  obtain ⟨p, hp⟩ := networkSwitch_isSome E.conf n w.c
  exact ⟨p, hp, fun s => m3_deployArgs E n accounts { w with store := s } p ⟨a⟩ hp h⟩

theorem second_step_args_witness :
    ∃ p : Profile, networkSwitch sampleConf "development" none = some p ∧
      ∀ s : List (String × String),
        deployArgs (migration_3_dEvoting sampleEnv "development" []
          { World.fresh with store := s }).world.calls =
          [[Value.str "0x111", Value.ints p.NFTtokenIds]] :=
  second_step_args sampleEnv "development" [] World.fresh "0x111" rfl

/-! ## Failure handling -/

/-- C5 as stated fails: in an environment where no artifact is ever deployed, the first
step completes normally; where only the second artifact is missing, the second step
completes normally. Neither signals a failure to its caller. -/
theorem failed_step_completes_normally :
    failingEnv.deployed "dEvotingNFT" = .ok none ∧
    (migration_2_dEvotingNFT failingEnv "development" [] World.fresh).result = .ok () ∧
    secondFailsEnv.deployed "dEvoting" = .ok none ∧
    (migration_3_dEvoting secondFailsEnv "development" [] World.fresh).result = .ok () :=
  ⟨rfl, rfl, rfl, rfl⟩

/-- C5, amended: when `deployer.deploy` returns and a step's own accessor yields no
artifact, the step logs `dEvotingNFT Deployment UNSUCCESSFUL` (first step) or
`dEvoting Deployment UNSUCCESSFUL` (second step, its NFT accessor having yielded an
artifact) after its one `deploy` call and completes normally: it signals no failure. -/
theorem failed_step_logs_and_resolves {σ : Type} (E : Env σ) (n : String)
    (accounts : List String) (w : World σ) (hd : ∀ k args, E.deploy k args = .ok ()) :
    (E.deployed "dEvotingNFT" = .ok none →
      (migration_2_dEvotingNFT E n accounts w).result = .ok () ∧
      ∃ p : Profile, (migration_2_dEvotingNFT E n accounts w).world.calls =
        w.calls ++ [Call.deploy "dEvotingNFT" (nftArgs p),
          Call.log "dEvotingNFT Deployment UNSUCCESSFUL"]) ∧
    (∀ nft : Artifact, E.deployed "dEvotingNFT" = .ok (some nft) →
      E.deployed "dEvoting" = .ok none →
      (migration_3_dEvoting E n accounts w).result = .ok () ∧
      ∃ p : Profile, (migration_3_dEvoting E n accounts w).world.calls =
        w.calls ++ [Call.deploy "dEvoting" [Value.str nft.address, Value.ints p.NFTtokenIds],
          Call.log "dEvoting Deployment UNSUCCESSFUL"]) := by
  obtain ⟨p, hp⟩ := networkSwitch_isSome E.conf n w.c
  refine ⟨fun h1 => ?_, fun nft h1 h2 => ?_⟩
  · rw [m2_absent E n accounts w p hp (hd _ _) h1]
    exact ⟨rfl, p, rfl⟩
  · rw [m3_absent E n accounts w p nft hp h1 (hd _ _) h2]
    exact ⟨rfl, p, rfl⟩

theorem failed_step_logs_and_resolves_witness :
    (migration_2_dEvotingNFT failingEnv "rinkeby" [] World.fresh).result = .ok () ∧
    (migration_3_dEvoting secondFailsEnv "rinkeby" [] World.fresh).result = .ok () :=
  ⟨((failed_step_logs_and_resolves failingEnv "rinkeby" [] World.fresh
      (fun _ _ => rfl)).1 rfl).1,
   ((failed_step_logs_and_resolves secondFailsEnv "rinkeby" [] World.fresh
      (fun _ _ => rfl)).2 ⟨"0x111"⟩ rfl rfl).1⟩

/-- C6: when a step's own accessor yields no artifact, the step makes no `setEnvValue`
call and the store after the step is the store before it, for every network name and
every prior store. -/
theorem failed_step_leaves_store {σ : Type} (E : Env σ) (n : String)
    (accounts : List String) (w : World σ) :
    (E.deployed "dEvotingNFT" = .ok none →
      (migration_2_dEvotingNFT E n accounts w).world.store = w.store ∧
      storeWrites (migration_2_dEvotingNFT E n accounts w).world.calls =
        storeWrites w.calls) ∧
    (E.deployed "dEvoting" = .ok none →
      (migration_3_dEvoting E n accounts w).world.store = w.store ∧
      storeWrites (migration_3_dEvoting E n accounts w).world.calls =
        storeWrites w.calls) :=
  ⟨m2_no_write E n accounts w, m3_no_write E n accounts w⟩

theorem failed_step_leaves_store_witness :
    (migration_2_dEvotingNFT failingEnv "mainnet" []
      { World.fresh with store := [("dEvotingNFT_ADDRESSMAINNET", "0x0ld")] }).world.store =
      [("dEvotingNFT_ADDRESSMAINNET", "0x0ld")] ∧
    (migration_3_dEvoting secondFailsEnv "mainnet" []
      { World.fresh with store := [("dEvoting_ADDRESSMAINNET", "0x0ld")] }).world.store =
      [("dEvoting_ADDRESSMAINNET", "0x0ld")] :=
  ⟨((failed_step_leaves_store failingEnv "mainnet" []
      { World.fresh with store := [("dEvotingNFT_ADDRESSMAINNET", "0x0ld")] }).1 rfl).1,
   ((failed_step_leaves_store secondFailsEnv "mainnet" []
      { World.fresh with store := [("dEvoting_ADDRESSMAINNET", "0x0ld")] }).2 rfl).1⟩

/-- C7 as stated fails: when the deployed artifacts report the empty address, each step
still completes its success branch and writes the empty string to the store. -/
theorem empty_address_is_written :
    emptyAddressEnv.deployed "dEvotingNFT" = .ok (some ⟨""⟩) ∧
    storeWrites (migration_2_dEvotingNFT emptyAddressEnv "development" []
      World.fresh).world.calls = [("dEvotingNFT_ADDRESSDEVELOPMENT", "")] ∧
    storeWrites (migration_3_dEvoting emptyAddressEnv "development" []
      World.fresh).world.calls = [("dEvoting_ADDRESSDEVELOPMENT", "")] :=
  ⟨rfl, by decide, by decide⟩

/-- C7, amended: a step decides on the artifact object, not on its address. When
`deployer.deploy` returns and the accessor settles with `r`, the step writes the
artifact's address under its key if `r` is an artifact, whatever the address (the empty
string included), and writes nothing if `r` is no artifact. -/
theorem store_write_iff_artifact {σ : Type} (E : Env σ) (n : String)
    (accounts : List String) (w : World σ) (hd : ∀ k args, E.deploy k args = .ok ()) :
    (∀ r : Option Artifact, E.deployed "dEvotingNFT" = .ok r →
      storeWrites (migration_2_dEvotingNFT E n accounts w).world.calls =
        storeWrites w.calls ++
          (match r with
           | some d => [(dEvotingNFTKey E n, d.address)]
           | none => [])) ∧
    (∀ (nft : Artifact) (r : Option Artifact), E.deployed "dEvotingNFT" = .ok (some nft) →
      E.deployed "dEvoting" = .ok r →
      storeWrites (migration_3_dEvoting E n accounts w).world.calls =
        storeWrites w.calls ++
          (match r with
           | some d => [(dEvotingKey E n, d.address)]
           | none => [])) := by
  obtain ⟨p, hp⟩ := networkSwitch_isSome E.conf n w.c
  refine ⟨fun r h1 => ?_, fun nft r h1 h2 => ?_⟩
  · cases r with
    | none => simpa using (m2_no_write E n accounts w h1).2
    | some d =>
      rw [m2_present E n accounts w p d hp (hd _ _) h1]
      simp [storeWrites_append, storeWrites]
  · cases r with
    | none => simpa using (m3_no_write E n accounts w h2).2
    | some d =>
      rw [m3_present E n accounts w p nft d hp h1 (hd _ _) h2]
      simp [storeWrites_append, storeWrites]

theorem store_write_iff_artifact_witness :
    storeWrites (migration_2_dEvotingNFT emptyAddressEnv "mainnet" []
      World.fresh).world.calls = [("dEvotingNFT_ADDRESSMAINNET", "")] ∧
    storeWrites (migration_3_dEvoting secondFailsEnv "mainnet" []
      World.fresh).world.calls = [] :=
  ⟨((store_write_iff_artifact emptyAddressEnv "mainnet" [] World.fresh
      (fun _ _ => rfl)).1 (some ⟨""⟩) rfl).trans (by decide),
   ((store_write_iff_artifact secondFailsEnv "mainnet" [] World.fresh
      (fun _ _ => rfl)).2 ⟨"0x111"⟩ none rfl rfl).trans (by decide)⟩

end DEvoting
